import Mathlib

/-!
# TestApp Android native activity: lifecycle, input and main-loop glue

A shallow embedding of
`TestApp/Source/AndroidNativeActivity/app/src/main/cpp/main.cpp`.

* Pointers are natural numbers, `0` being `NULL`.
* `int32_t` values are integers; the only arithmetic in the file is the
  constant `(1000L/60)*1000`, far from any overflow.
* The process-scope globals `runtime` and `inputBuffer` together with the
  `struct engine` reached through `app->userData` form `ProcessState`.
* Every call into a collaborator (the embedded runtime, the input manager, the
  sensor event queue) is recorded as an `Effect`, in program order.
* A `float` is its IEEE-754 binary32 bit pattern.
-/

namespace BabylonNative

/-- Pointer values; `0` is the null pointer. -/
abbrev Ptr := Nat

/-! ## Constants of `android_native_app_glue.h` and `android/input.h` -/

def APP_CMD_INPUT_CHANGED : Int := 0
def APP_CMD_INIT_WINDOW : Int := 1
def APP_CMD_TERM_WINDOW : Int := 2
def APP_CMD_WINDOW_RESIZED : Int := 3
def APP_CMD_WINDOW_REDRAW_NEEDED : Int := 4
def APP_CMD_CONTENT_RECT_CHANGED : Int := 5
def APP_CMD_GAINED_FOCUS : Int := 6
def APP_CMD_LOST_FOCUS : Int := 7
def APP_CMD_CONFIG_CHANGED : Int := 8
def APP_CMD_LOW_MEMORY : Int := 9
def APP_CMD_START : Int := 10
def APP_CMD_RESUME : Int := 11
def APP_CMD_SAVE_STATE : Int := 12
def APP_CMD_PAUSE : Int := 13
def APP_CMD_STOP : Int := 14
def APP_CMD_DESTROY : Int := 15

def AINPUT_EVENT_TYPE_KEY : Int := 1
def AINPUT_EVENT_TYPE_MOTION : Int := 2

/-! ## Single-precision floats -/

/-- A C `float`, given by its IEEE-754 binary32 bit pattern (read modulo `2^32`). -/
structure float where
  bits : Nat
  deriving DecidableEq, Repr

/-- Sign bit of a binary32 pattern. -/
def float.sign (f : float) : Nat := (f.bits / 2 ^ 31) % 2

/-- Biased exponent field (8 bits). -/
def float.exponent (f : float) : Nat := (f.bits / 2 ^ 23) % 256

/-- Fraction field (23 bits). -/
def float.mantissa (f : float) : Nat := f.bits % 2 ^ 23

/-- Not-a-number: exponent all ones, fraction non-zero. -/
def float.isNaN (f : float) : Bool := f.exponent == 255 && f.mantissa != 0

/-- Positive or negative zero. -/
def float.isZero (f : float) : Bool := f.exponent == 0 && f.mantissa == 0

/-- The C comparison `f > 0.f`: false for NaN, for both zeros and for every
value with the sign bit set; true for positive subnormals, normals and `+inf`. -/
def float.gtZero (f : float) : Bool := f.sign == 0 && !f.isNaN && !f.isZero

/-- The rational value of a finite binary32 pattern (exponent field below 255). -/
def float.toRat (f : float) : ℚ :=
  (if f.sign = 0 then 1 else -1) *
    (if f.exponent = 0 then (f.mantissa : ℚ) * (2 : ℚ) ^ (-149 : Int)
     else ((2 ^ 23 + f.mantissa : Nat) : ℚ) * (2 : ℚ) ^ ((f.exponent : Int) - 150))

/-! ## Data model -/

/-- The three functions of `main.cpp` registered as log sinks. -/
inductive LogSink where
  | AndroidLogMessage
  | AndroidWarnMessage
  | AndroidErrorMessage
  deriving DecidableEq, Repr

/-- Shared state for the app: `struct engine`. -/
structure engine where
  app : Ptr
  m_window : Ptr
  sensorManager : Ptr
  accelerometerSensor : Ptr
  sensorEventQueue : Ptr
  width : Int
  height : Int
  deriving DecidableEq, Repr

/-- Modelled from the spec: the embedded runtime `babylon::RuntimeAndroid`, whose
class is declared in `Babylon/RuntimeAndroid.h` and is not among the sources.
The record keeps what the consumed contract
`construct(window, base-resource-path, width, height)`, `SetWindow(window)`,
`UpdateSize(width, height)`, `LoadScript(path)` passes to it. -/
structure RuntimeAndroid where
  window : Ptr
  rootUrl : String
  width : Int
  height : Int
  scripts : List String
  deriving DecidableEq, Repr

/-- Modelled from the spec: `RuntimeAndroid::SetWindow`. -/
def RuntimeAndroid.SetWindow (rt : RuntimeAndroid) (window : Ptr) : RuntimeAndroid :=
  { rt with window := window }

/-- Modelled from the spec: `RuntimeAndroid::UpdateSize`. -/
def RuntimeAndroid.UpdateSize (rt : RuntimeAndroid) (width height : Int) : RuntimeAndroid :=
  { rt with width := width, height := height }

/-- Modelled from the spec: `Runtime::LoadScript`; scripts are kept in load order. -/
def RuntimeAndroid.LoadScript (rt : RuntimeAndroid) (url : String) : RuntimeAndroid :=
  { rt with scripts := rt.scripts ++ [url] }

/-- Modelled from the spec: `InputManager::InputBuffer` (declared in
`InputManager.h`, not among the sources), which "holds the latest single-pointer
position and pressed flag". -/
structure InputBuffer where
  pointerX : float
  pointerY : float
  pointerDown : Bool
  deriving DecidableEq, Repr

/-- Modelled from the spec: a freshly created input buffer. -/
def InputBuffer.new : InputBuffer := ⟨⟨0⟩, ⟨0⟩, false⟩

/-- Modelled from the spec: `InputBuffer::SetPointerPosition`. -/
def InputBuffer.SetPointerPosition (b : InputBuffer) (x y : float) : InputBuffer :=
  { b with pointerX := x, pointerY := y }

/-- Modelled from the spec: `InputBuffer::SetPointerDown`. -/
def InputBuffer.SetPointerDown (b : InputBuffer) (down : Bool) : InputBuffer :=
  { b with pointerDown := down }

/-- Calls made by `main.cpp` into its collaborators, with their arguments. -/
inductive Effect where
  | RegisterLogOutput (sink : LogSink)
  | RegisterWarnOutput (sink : LogSink)
  | RegisterErrorOutput (sink : LogSink)
  | RuntimeAndroid_construct (window : Ptr) (rootUrl : String) (width height : Int)
  | InputBuffer_construct
  | InputManager_Initialize
  | LoadScript (url : String)
  | SetWindow (window : Ptr)
  | UpdateSize (width height : Int)
  | ASensorEventQueue_enableSensor (queue sensor : Ptr)
  | ASensorEventQueue_setEventRate (queue sensor : Ptr) (usec : Int)
  | ASensorEventQueue_disableSensor (queue sensor : Ptr)
  | SetPointerPosition (x y : float)
  | SetPointerDown (down : Bool)
  deriving DecidableEq, Repr

/-- What a handler reads of `struct android_app`: `window` is `app->window`, and
`windowWidth`, `windowHeight` are what `ANativeWindow_getWidth` and
`ANativeWindow_getHeight` answer for that window during the call. -/
structure android_app where
  window : Ptr
  windowWidth : Int
  windowHeight : Int
  deriving DecidableEq, Repr

/-- The mutable state the handlers act on: the engine behind `app->userData` and
the globals `runtime` and `inputBuffer` (`none` is an empty `unique_ptr`). -/
structure ProcessState where
  engine : engine
  runtime : Option RuntimeAndroid
  inputBuffer : Option InputBuffer
  deriving DecidableEq, Repr

/-- The engine right after `memset(&engine, 0, sizeof(engine))`. -/
def engine_zeroed : engine := ⟨0, 0, 0, 0, 0, 0, 0⟩

/-- The engine as `android_main` leaves it before entering its loop: zeroed,
then `app` and the three sensor handles stored. -/
def android_main_engine (state sensorManager accelerometerSensor sensorEventQueue : Ptr) :
    engine :=
  { engine_zeroed with
    app := state
    sensorManager := sensorManager
    accelerometerSensor := accelerometerSensor
    sensorEventQueue := sensorEventQueue }

/-- The state before any callback has run: the given engine, no runtime, no
input buffer. -/
def initialState (e : engine) : ProcessState := ⟨e, none, none⟩

/-! ## `engine_handle_cmd` -/

/-- The event period handed to `ASensorEventQueue_setEventRate`:
the C expression `(1000L/60)*1000`. -/
def eventRateUsec : Int := (Int.tdiv 1000 60) * 1000

/-- Process the next main command (`engine_handle_cmd`): the new state and the
collaborator calls made, in order. -/
def engine_handle_cmd (app : android_app) (cmd : Int) (g : ProcessState) :
    ProcessState × List Effect :=
  if cmd = APP_CMD_SAVE_STATE then (g, [])
  else if cmd = APP_CMD_INIT_WINDOW then
    if g.engine.m_window ≠ app.window then
      let e : engine := { g.engine with m_window := app.window }
      let width := app.windowWidth
      let height := app.windowHeight
      match g.runtime with
      | none =>
        let rt : RuntimeAndroid := ⟨e.m_window, "file:///data/local/tmp", width, height, []⟩
        let rt := rt.LoadScript "Scripts/babylon.max.js"
        let rt := rt.LoadScript "Scripts/babylon.glTF2FileLoader.js"
        let rt := rt.LoadScript "Scripts/experience.js"
        (⟨e, some rt, some InputBuffer.new⟩,
          [Effect.RegisterLogOutput LogSink.AndroidLogMessage,
           Effect.RegisterWarnOutput LogSink.AndroidWarnMessage,
           Effect.RegisterErrorOutput LogSink.AndroidErrorMessage,
           Effect.RuntimeAndroid_construct e.m_window "file:///data/local/tmp" width height,
           Effect.InputBuffer_construct,
           Effect.InputManager_Initialize,
           Effect.LoadScript "Scripts/babylon.max.js",
           Effect.LoadScript "Scripts/babylon.glTF2FileLoader.js",
           Effect.LoadScript "Scripts/experience.js"])
      | some rt =>
        (⟨e, some ((rt.SetWindow e.m_window).UpdateSize width height), g.inputBuffer⟩,
          [Effect.SetWindow e.m_window, Effect.UpdateSize width height])
    else (g, [])
  else if cmd = APP_CMD_WINDOW_RESIZED then (g, [])
  else if cmd = APP_CMD_TERM_WINDOW then (g, [])
  else if cmd = APP_CMD_GAINED_FOCUS then
    if g.engine.accelerometerSensor ≠ 0 then
      (g, [Effect.ASensorEventQueue_enableSensor g.engine.sensorEventQueue
             g.engine.accelerometerSensor,
           Effect.ASensorEventQueue_setEventRate g.engine.sensorEventQueue
             g.engine.accelerometerSensor eventRateUsec])
    else (g, [])
  else if cmd = APP_CMD_LOST_FOCUS then
    if g.engine.accelerometerSensor ≠ 0 then
      (g, [Effect.ASensorEventQueue_disableSensor g.engine.sensorEventQueue
             g.engine.accelerometerSensor])
    else (g, [])
  else (g, [])

/-- A lifecycle command as delivered: the app as it is at that moment, and the
command code. -/
structure Command where
  app : android_app
  cmd : Int
  deriving DecidableEq, Repr

/-- Handle a finite sequence of commands one after the other, collecting the
calls made. -/
def handle_cmds (g : ProcessState) : List Command → ProcessState × List Effect
  | [] => (g, [])
  | c :: rest =>
    let r := engine_handle_cmd c.app c.cmd g
    let r2 := handle_cmds r.1 rest
    (r2.1, r.2 ++ r2.2)

/-- Whether a call is the runtime constructor. -/
def Effect.isRuntimeConstruct : Effect → Bool
  | Effect.RuntimeAndroid_construct _ _ _ _ => true
  | _ => false

/-- How many times the runtime constructor is invoked in a trace. -/
def runtimeConstructions (t : List Effect) : Nat := t.countP Effect.isRuntimeConstruct

/-! ## `engine_handle_input` -/

/-- Ways a call can fail to return. -/
inductive Fault where
  | nullDereference
  | assertionFailed
  deriving DecidableEq, Repr

/-- What `engine_handle_input` reads of an `AInputEvent`: `type` is
`AInputEvent_getType(event)`; `x`, `y`, `pressure` are `AMotionEvent_getX`,
`AMotionEvent_getY`, `AMotionEvent_getPressure` at pointer index 0. -/
structure AInputEvent where
  type : Int
  x : float
  y : float
  pressure : float
  deriving DecidableEq, Repr

/-- Outcome of a returning call of `engine_handle_input`. -/
structure InputResult where
  state : ProcessState
  calls : List Effect
  ret : Int
  deriving DecidableEq, Repr

/-- Process the next input event (`engine_handle_input`). The two calls through
`inputBuffer->` dereference the global pointer; with an empty pointer the call
does not return (`Fault.nullDereference`). -/
def engine_handle_input (_app : android_app) (event : AInputEvent) (g : ProcessState) :
    Except Fault InputResult :=
  if event.type = AINPUT_EVENT_TYPE_MOTION then
    match g.inputBuffer with
    | none => Except.error Fault.nullDereference
    | some buf =>
      let buf := buf.SetPointerPosition event.x event.y
      let buf := buf.SetPointerDown event.pressure.gtZero
      Except.ok
        ⟨{ g with inputBuffer := some buf },
         [Effect.SetPointerPosition event.x event.y,
          Effect.SetPointerDown event.pressure.gtZero],
         1⟩
  else Except.ok ⟨g, [], 0⟩

/-! ## `AcquireASensorManagerInstance` -/

/-- What is reached through a non-null `android_app*` in
`AcquireASensorManagerInstance`: the string the activity answers to
`getPackageName()` over JNI. -/
structure ANativeActivity where
  packageName : String
  deriving DecidableEq, Repr

/-- Outcome of symbol resolution in `libandroid.so`: each `dlsym` result is
`none` when the symbol is absent, else the function found. -/
structure SensorSymbols where
  getInstanceForPackage : Option (String → Ptr)
  getInstance : Option (Unit → Ptr)

/-- The sensor manager handle (`AcquireASensorManagerInstance`); `app = none` is a
null `android_app*`. The `assert` is taken as compiled in. -/
def AcquireASensorManagerInstance (app : Option ANativeActivity) (sym : SensorSymbols) :
    Except Fault Ptr :=
  match app with
  | none => Except.ok 0
  | some activity =>
    let viaPackage : Option Ptr :=
      match sym.getInstanceForPackage with
      | some getInstanceForPackageFunc =>
        let mgr := getInstanceForPackageFunc activity.packageName
        if mgr ≠ 0 then some mgr else none
      | none => none
    match viaPackage with
    | some mgr => Except.ok mgr
    | none =>
      match sym.getInstance with
      | none => Except.error Fault.assertionFailed
      | some getInstanceFunc => Except.ok (getInstanceFunc ())

/-! ## The event loop of `android_main` -/

/-- State the loop of `android_main` and the event sources act on:
`state->destroyRequested`, the process state, and the collaborator calls made so
far. -/
structure MainState where
  destroyRequested : Int
  globals : ProcessState
  calls : List Effect

/-- A `struct android_poll_source` as the loop uses it: an identifier and its
`process` handler, which may change anything in the state. -/
structure android_poll_source where
  id : Int
  process : MainState → MainState

/-- The value `ALooper_pollAll` stored in `source` when it returned: `none` is
`NULL`. -/
abbrev PollResult := Option android_poll_source

/-- Observable steps of the loop. -/
inductive LoopEvent where
  | poll
  | process (id : Int)
  deriving DecidableEq, Repr

/-- How a run over finitely many poll results ends: the loop condition failed,
or the loop is inside `ALooper_pollAll(-1, ...)` waiting for a further result. -/
inductive LoopStatus where
  | exited
  | waiting
  deriving DecidableEq, Repr

/-- The loop condition `0 == state->destroyRequested`. -/
def loop_condition (st : MainState) : Bool := decide (0 = st.destroyRequested)

/-- The loop body, given what the poll returned. -/
def loop_body (st : MainState) (source : PollResult) : MainState × List LoopEvent :=
  match source with
  | some src => (src.process st, [LoopEvent.poll, LoopEvent.process src.id])
  | none => (st, [LoopEvent.poll])

/-- A run of the loop. -/
structure LoopRun where
  state : MainState
  events : List LoopEvent
  iterations : Nat
  status : LoopStatus

/-- The `while` loop of `android_main` over the results the successive polls
return. -/
def android_main_loop : MainState → List PollResult → LoopRun
  | st, [] =>
    if loop_condition st then ⟨st, [], 0, LoopStatus.waiting⟩
    else ⟨st, [], 0, LoopStatus.exited⟩
  | st, source :: rest =>
    if loop_condition st then
      let b := loop_body st source
      let r := android_main_loop b.1 rest
      ⟨r.state, b.2 ++ r.events, r.iterations + 1, r.status⟩
    else ⟨st, [], 0, LoopStatus.exited⟩

/-- The state after the handlers of the given poll results have run in order,
with no loop condition in between. -/
def stateAfter (st : MainState) (polls : List PollResult) : MainState :=
  polls.foldl (fun s p => (loop_body s p).1) st

/-- What one iteration is expected to show for a given poll result: one poll,
then one call of the source's handler when the source is not null. -/
def iterationEvents : PollResult → List LoopEvent
  | some src => [LoopEvent.poll, LoopEvent.process src.id]
  | none => [LoopEvent.poll]

/-- The expected events of consecutive iterations. -/
def eventsOf : List PollResult → List LoopEvent
  | [] => []
  | p :: rest => iterationEvents p ++ eventsOf rest

/-- The command source of `android_native_app_glue` as the loop sees it, for a
command read from the pipe: it runs `onAppCmd` (here `engine_handle_cmd`) and,
on `APP_CMD_DESTROY`, sets `destroyRequested`. -/
def cmdSource (app : android_app) (cmd : Int) : android_poll_source :=
  ⟨1, fun st =>
    { destroyRequested := if cmd = APP_CMD_DESTROY then 1 else st.destroyRequested
      globals := (engine_handle_cmd app cmd st.globals).1
      calls := st.calls ++ (engine_handle_cmd app cmd st.globals).2 }⟩

/-- The state in which `android_main` enters its loop. -/
def android_main_start (state sensorManager accelerometerSensor sensorEventQueue : Ptr) :
    MainState :=
  ⟨0, initialState (android_main_engine state sensorManager accelerometerSensor sensorEventQueue),
    []⟩

/-! ## Interleaved commands and input events -/

/-- An event delivered to one of the two callbacks. -/
inductive AppEvent where
  | command (c : Command)
  | input (app : android_app) (event : AInputEvent)
  deriving DecidableEq, Repr

/-- Handle a finite interleaving of commands and input events; the run ends at
the first call that does not return. -/
def handle_events (g : ProcessState) : List AppEvent → Except Fault (ProcessState × List Effect)
  | [] => Except.ok (g, [])
  | AppEvent.command c :: rest =>
    let r := engine_handle_cmd c.app c.cmd g
    match handle_events r.1 rest with
    | Except.ok r2 => Except.ok (r2.1, r.2 ++ r2.2)
    | Except.error f => Except.error f
  | AppEvent.input app event :: rest =>
    match engine_handle_input app event g with
    | Except.error f => Except.error f
    | Except.ok r =>
      match handle_events r.state rest with
      | Except.ok r2 => Except.ok (r2.1, r.calls ++ r2.2)
      | Except.error f => Except.error f

/-- Whether a motion input event comes before every command able to construct
the runtime from the initial state (an `APP_CMD_INIT_WINDOW` with a non-null
window). -/
def motionBeforeRuntime : List AppEvent → Bool
  | [] => false
  | AppEvent.command c :: rest =>
    if c.cmd = APP_CMD_INIT_WINDOW ∧ c.app.window ≠ 0 then false else motionBeforeRuntime rest
  | AppEvent.input _ event :: rest =>
    if event.type = AINPUT_EVENT_TYPE_MOTION then true else motionBeforeRuntime rest

/-- The fact kept by every callback: the input buffer exists exactly when the
runtime does. -/
def buffersPaired (g : ProcessState) : Prop := g.inputBuffer.isSome = g.runtime.isSome

/-! ## Sensor subscription, read off the trace -/

/-- Whether a call acts on a sensor event queue. -/
def Effect.isSensorQueueOp : Effect → Bool
  | Effect.ASensorEventQueue_enableSensor _ _ => true
  | Effect.ASensorEventQueue_setEventRate _ _ _ => true
  | Effect.ASensorEventQueue_disableSensor _ _ => true
  | _ => false

/-- Whether `sensor` is enabled on `queue` after one more call: enabling turns it
on, disabling turns it off, every other call leaves it as it was. -/
def sensorEnabledStep (queue sensor : Ptr) (enabled : Bool) : Effect → Bool
  | Effect.ASensorEventQueue_enableSensor q s =>
    if q = queue ∧ s = sensor then true else enabled
  | Effect.ASensorEventQueue_disableSensor q s =>
    if q = queue ∧ s = sensor then false else enabled
  | _ => enabled

/-- Whether `sensor` is enabled on `queue` after the calls of a trace. -/
def sensorEnabled (queue sensor : Ptr) (enabled : Bool) (t : List Effect) : Bool :=
  t.foldl (sensorEnabledStep queue sensor) enabled

/-- Whether a command code is one of the two focus commands. -/
def isFocusCmd (cmd : Int) : Bool :=
  decide (cmd = APP_CMD_GAINED_FOCUS) || decide (cmd = APP_CMD_LOST_FOCUS)

/-- The most recent focus command among the command codes handled so far. -/
def lastFocusCmd (cmds : List Command) : Option Int :=
  ((cmds.map Command.cmd).filter isFocusCmd).getLast?

/-- The event periods passed to `ASensorEventQueue_setEventRate` in a trace. -/
def eventRates : List Effect → List Int
  | [] => []
  | Effect.ASensorEventQueue_setEventRate _ _ usec :: t => usec :: eventRates t
  | _ :: t => eventRates t

/-! ## Lemmas about one command -/

theorem runtimeConstructions_append (t u : List Effect) :
    runtimeConstructions (t ++ u) = runtimeConstructions t + runtimeConstructions u := by
  simp [runtimeConstructions, List.countP_append]

/-- With a runtime in place a command never constructs one, and the runtime stays. -/
theorem engine_handle_cmd_of_runtime (app : android_app) (cmd : Int) (g : ProcessState)
    (h : g.runtime.isSome = true) :
    (engine_handle_cmd app cmd g).1.runtime.isSome = true ∧
      runtimeConstructions (engine_handle_cmd app cmd g).2 = 0 := by
  obtain ⟨e, rt, ib⟩ := g
  cases rt with
  | none => simp at h
  | some rt =>
    unfold engine_handle_cmd
    split_ifs <;> simp [runtimeConstructions, Effect.isRuntimeConstruct]

/-- Without a runtime a command constructs at most one, and if it does the
runtime exists afterwards. -/
theorem engine_handle_cmd_of_no_runtime (app : android_app) (cmd : Int) (g : ProcessState)
    (h : g.runtime = none) :
    runtimeConstructions (engine_handle_cmd app cmd g).2 ≤ 1 ∧
      (runtimeConstructions (engine_handle_cmd app cmd g).2 = 1 →
        (engine_handle_cmd app cmd g).1.runtime.isSome = true) ∧
      (runtimeConstructions (engine_handle_cmd app cmd g).2 = 0 →
        (engine_handle_cmd app cmd g).1.runtime = none) := by
  obtain ⟨e, rt, ib⟩ := g
  simp only at h
  subst h
  unfold engine_handle_cmd
  split_ifs <;> simp [runtimeConstructions, Effect.isRuntimeConstruct]

/-- Over a sequence of commands, from a state with a runtime: no construction. -/
theorem handle_cmds_of_runtime (cmds : List Command) :
    ∀ g : ProcessState, g.runtime.isSome = true →
      runtimeConstructions (handle_cmds g cmds).2 = 0 := by
  induction cmds with
  | nil => intro g _; simp [handle_cmds, runtimeConstructions]
  | cons c rest ih =>
    intro g h
    have hs := engine_handle_cmd_of_runtime c.app c.cmd g h
    simp only [handle_cmds, runtimeConstructions_append, hs.2, ih _ hs.1]

/-- Over a sequence of commands, from any state: at most one construction. -/
theorem handle_cmds_constructions_le (cmds : List Command) :
    ∀ g : ProcessState, runtimeConstructions (handle_cmds g cmds).2 ≤ 1 := by
  induction cmds with
  | nil => intro g; simp [handle_cmds, runtimeConstructions]
  | cons c rest ih =>
    intro g
    simp only [handle_cmds, runtimeConstructions_append]
    cases hrt : g.runtime with
    | some rt =>
      have hs := engine_handle_cmd_of_runtime c.app c.cmd g (by simp [hrt])
      rw [hs.2, handle_cmds_of_runtime rest _ hs.1]
      omega
    | none =>
      have hs := engine_handle_cmd_of_no_runtime c.app c.cmd g hrt
      rcases Nat.le_one_iff_eq_zero_or_eq_one.mp hs.1 with h0 | h1
      · rw [h0]
        have := ih (engine_handle_cmd c.app c.cmd g).1
        omega
      · rw [h1, handle_cmds_of_runtime rest _ (hs.2.1 h1)]

/-- With null handles the engine `android_main` sets up is the zeroed engine. -/
theorem android_main_engine_zero : android_main_engine 0 0 0 0 = engine_zeroed := by
  rfl

/-! ## C1: the runtime is constructed at most once -/

/-- C1: over every finite sequence of lifecycle commands, each delivered with an
arbitrary app window (and window size), handled from the initial state (the
engine as `android_main` set it up, in particular the zeroed engine; no runtime,
no input buffer), the runtime constructor is invoked at most once. -/
theorem C1_runtime_constructed_at_most_once
    (state sensorManager accelerometerSensor sensorEventQueue : Ptr) (cmds : List Command) :
    runtimeConstructions
        (handle_cmds
          (initialState
            (android_main_engine state sensorManager accelerometerSensor sensorEventQueue))
          cmds).2 ≤ 1 ∧
      runtimeConstructions (handle_cmds (initialState engine_zeroed) cmds).2 ≤ 1 :=
  ⟨handle_cmds_constructions_le cmds _, handle_cmds_constructions_le cmds _⟩

/-- The bound of C1 is reached: two window-ready events with different windows
construct the runtime once and then update it. -/
theorem runtime_constructed_once_example :
    (handle_cmds (initialState engine_zeroed)
        [⟨⟨7, 640, 480⟩, APP_CMD_INIT_WINDOW⟩, ⟨⟨9, 800, 600⟩, APP_CMD_INIT_WINDOW⟩]).2 =
      [Effect.RegisterLogOutput LogSink.AndroidLogMessage,
       Effect.RegisterWarnOutput LogSink.AndroidWarnMessage,
       Effect.RegisterErrorOutput LogSink.AndroidErrorMessage,
       Effect.RuntimeAndroid_construct 7 "file:///data/local/tmp" 640 480,
       Effect.InputBuffer_construct,
       Effect.InputManager_Initialize,
       Effect.LoadScript "Scripts/babylon.max.js",
       Effect.LoadScript "Scripts/babylon.glTF2FileLoader.js",
       Effect.LoadScript "Scripts/experience.js",
       Effect.SetWindow 9,
       Effect.UpdateSize 800 600] := by
  rfl

/-! ## C2: a window-ready event with the runtime in place -/

/-- C2, as stated, fails: the runtime exists (window 7, size 100 x 100), the
engine's recorded window is 7, and `APP_CMD_INIT_WINDOW` arrives with the app's
window still 7 (now 640 x 480). The guard `engine->m_window != app->window` is
false, so neither `SetWindow` nor `UpdateSize` is called and the state is
unchanged. -/
theorem C2_counterexample :
    (engine_handle_cmd ⟨7, 640, 480⟩ APP_CMD_INIT_WINDOW
        ⟨{ engine_zeroed with m_window := 7 },
         some ⟨7, "file:///data/local/tmp", 100, 100, []⟩, some InputBuffer.new⟩) =
      (⟨{ engine_zeroed with m_window := 7 },
        some ⟨7, "file:///data/local/tmp", 100, 100, []⟩, some InputBuffer.new⟩, []) ∧
    (engine_handle_cmd ⟨7, 640, 480⟩ APP_CMD_INIT_WINDOW
        ⟨{ engine_zeroed with m_window := 7 },
         some ⟨7, "file:///data/local/tmp", 100, 100, []⟩, some InputBuffer.new⟩).2 ≠
      [Effect.SetWindow 7, Effect.UpdateSize 640 480] := by
  constructor
  · rfl
  · simp [engine_handle_cmd, APP_CMD_INIT_WINDOW, APP_CMD_SAVE_STATE, engine_zeroed]

/-- C2, amended: in every state in which the runtime exists, and for every app
window, handling `APP_CMD_INIT_WINDOW` never constructs a runtime. When the
app's window differs from the window the engine recorded, the engine records
it, and exactly `SetWindow(window)` then `UpdateSize(width, height)` are called
on the existing runtime, with the app's current window and that window's width
and height; the input buffer is untouched. When the app's window is the
recorded one, nothing is called and the state is unchanged. -/
theorem C2_init_window_updates_existing_runtime
    (app : android_app) (g : ProcessState) (rt : RuntimeAndroid) (h : g.runtime = some rt) :
    runtimeConstructions (engine_handle_cmd app APP_CMD_INIT_WINDOW g).2 = 0 ∧
    (g.engine.m_window ≠ app.window →
      engine_handle_cmd app APP_CMD_INIT_WINDOW g =
        (⟨{ g.engine with m_window := app.window },
          some { rt with window := app.window, width := app.windowWidth,
                         height := app.windowHeight },
          g.inputBuffer⟩,
         [Effect.SetWindow app.window,
          Effect.UpdateSize app.windowWidth app.windowHeight])) ∧
    (g.engine.m_window = app.window →
      engine_handle_cmd app APP_CMD_INIT_WINDOW g = (g, [])) := by
  obtain ⟨e, r, ib⟩ := g
  simp only at h
  subst h
  refine ⟨?_, ?_, ?_⟩
  · exact (engine_handle_cmd_of_runtime app APP_CMD_INIT_WINDOW _ (by simp)).2
  · intro hne
    simp only at hne
    simp [engine_handle_cmd, APP_CMD_INIT_WINDOW, APP_CMD_SAVE_STATE, hne,
      RuntimeAndroid.SetWindow, RuntimeAndroid.UpdateSize]
  · intro heq
    simp only at heq
    simp [engine_handle_cmd, APP_CMD_INIT_WINDOW, APP_CMD_SAVE_STATE, heq]

/-- C2, amended, at a concrete input: runtime on window 7, app now on window 9. -/
theorem C2_init_window_updates_existing_runtime_witness :
    engine_handle_cmd ⟨9, 800, 600⟩ APP_CMD_INIT_WINDOW
        ⟨{ engine_zeroed with m_window := 7 },
         some ⟨7, "file:///data/local/tmp", 640, 480, []⟩, none⟩ =
      (⟨{ engine_zeroed with m_window := 9 },
        some ⟨9, "file:///data/local/tmp", 800, 600, []⟩, none⟩,
       [Effect.SetWindow 9, Effect.UpdateSize 800 600]) :=
  (C2_init_window_updates_existing_runtime ⟨9, 800, 600⟩
    ⟨{ engine_zeroed with m_window := 7 },
     some ⟨7, "file:///data/local/tmp", 640, 480, []⟩, none⟩
    ⟨7, "file:///data/local/tmp", 640, 480, []⟩ rfl).2.1 (by decide)

/-! ## C3: window resize -/

/-- C3, as stated, fails: the runtime exists with size 100 x 100 on window 7, the
window is now 640 x 480, and `APP_CMD_WINDOW_RESIZED` is handled. No call is
made (in particular no `UpdateSize`) and the runtime keeps size 100 x 100. -/
theorem C3_counterexample :
    (engine_handle_cmd ⟨7, 640, 480⟩ APP_CMD_WINDOW_RESIZED
        ⟨{ engine_zeroed with m_window := 7 },
         some ⟨7, "file:///data/local/tmp", 100, 100, []⟩, some InputBuffer.new⟩).2 = [] ∧
    (engine_handle_cmd ⟨7, 640, 480⟩ APP_CMD_WINDOW_RESIZED
        ⟨{ engine_zeroed with m_window := 7 },
         some ⟨7, "file:///data/local/tmp", 100, 100, []⟩, some InputBuffer.new⟩).1.runtime =
      some ⟨7, "file:///data/local/tmp", 100, 100, []⟩ ∧
    (engine_handle_cmd ⟨7, 640, 480⟩ APP_CMD_WINDOW_RESIZED
        ⟨{ engine_zeroed with m_window := 7 },
         some ⟨7, "file:///data/local/tmp", 100, 100, []⟩, some InputBuffer.new⟩).2 ≠
      [Effect.UpdateSize 640 480] := by
  refine ⟨rfl, rfl, ?_⟩
  simp [engine_handle_cmd, APP_CMD_WINDOW_RESIZED, APP_CMD_INIT_WINDOW, APP_CMD_SAVE_STATE]

/-- C3, amended: in every state (so also in every state in which the runtime
exists) and for every app window, handling `APP_CMD_WINDOW_RESIZED` makes no call
and leaves the state unchanged: the runtime, its size included, is not mutated
and `UpdateSize` is not called. -/
theorem C3_window_resized_is_noop (app : android_app) (g : ProcessState) :
    engine_handle_cmd app APP_CMD_WINDOW_RESIZED g = (g, []) ∧
      (engine_handle_cmd app APP_CMD_WINDOW_RESIZED g).1.runtime = g.runtime ∧
      (∀ width height : Int,
        Effect.UpdateSize width height ∉ (engine_handle_cmd app APP_CMD_WINDOW_RESIZED g).2) := by
  have h : engine_handle_cmd app APP_CMD_WINDOW_RESIZED g = (g, []) := by
    simp [engine_handle_cmd, APP_CMD_WINDOW_RESIZED, APP_CMD_INIT_WINDOW, APP_CMD_SAVE_STATE]
  refine ⟨h, ?_, ?_⟩
  · rw [h]
  · intro width height
    rw [h]
    simp

/-! ## C4: the first window-ready event -/

/-- A command other than `APP_CMD_INIT_WINDOW` leaves the state as it is. -/
theorem engine_handle_cmd_state_of_ne_init (app : android_app) (cmd : Int) (g : ProcessState)
    (h : cmd ≠ APP_CMD_INIT_WINDOW) : (engine_handle_cmd app cmd g).1 = g := by
  unfold engine_handle_cmd
  split_ifs <;> simp_all

/-- Commands other than `APP_CMD_INIT_WINDOW` leave the state as it is. -/
theorem handle_cmds_state_of_ne_init (cmds : List Command) :
    ∀ g : ProcessState, (∀ c ∈ cmds, c.cmd ≠ APP_CMD_INIT_WINDOW) →
      (handle_cmds g cmds).1 = g := by
  induction cmds with
  | nil => intro g _; rfl
  | cons c rest ih =>
    intro g h
    have hc := engine_handle_cmd_state_of_ne_init c.app c.cmd g (h c (by simp))
    simp only [handle_cmds, hc]
    exact ih g (fun d hd => h d (by simp [hd]))

/-- C4: from the initial state (the engine as `android_main` set it up, so with
`m_window` zero; no runtime), after any commands that are not
`APP_CMD_INIT_WINDOW`, the first `APP_CMD_INIT_WINDOW`, delivered with a non-null
app window, makes exactly these calls in this order: register the info, warn and
error log sinks; construct the runtime with (that window,
"file:///data/local/tmp", the window's width, the window's height); create the
input buffer and initialise the input manager; `LoadScript` on
"Scripts/babylon.max.js", "Scripts/babylon.glTF2FileLoader.js",
"Scripts/experience.js". It records the window as the engine's current window,
and the runtime and the input buffer exist afterwards. -/
theorem C4_first_init_window
    (state sensorManager accelerometerSensor sensorEventQueue : Ptr)
    (pre : List Command) (app : android_app)
    (hpre : ∀ c ∈ pre, c.cmd ≠ APP_CMD_INIT_WINDOW) (hw : app.window ≠ 0) :
    engine_handle_cmd app APP_CMD_INIT_WINDOW
        (handle_cmds
          (initialState
            (android_main_engine state sensorManager accelerometerSensor sensorEventQueue))
          pre).1 =
      (⟨{ android_main_engine state sensorManager accelerometerSensor sensorEventQueue with
            m_window := app.window },
        some ⟨app.window, "file:///data/local/tmp", app.windowWidth, app.windowHeight,
          ["Scripts/babylon.max.js", "Scripts/babylon.glTF2FileLoader.js",
           "Scripts/experience.js"]⟩,
        some InputBuffer.new⟩,
       [Effect.RegisterLogOutput LogSink.AndroidLogMessage,
        Effect.RegisterWarnOutput LogSink.AndroidWarnMessage,
        Effect.RegisterErrorOutput LogSink.AndroidErrorMessage,
        Effect.RuntimeAndroid_construct app.window "file:///data/local/tmp"
          app.windowWidth app.windowHeight,
        Effect.InputBuffer_construct,
        Effect.InputManager_Initialize,
        Effect.LoadScript "Scripts/babylon.max.js",
        Effect.LoadScript "Scripts/babylon.glTF2FileLoader.js",
        Effect.LoadScript "Scripts/experience.js"]) := by
  rw [handle_cmds_state_of_ne_init pre _ hpre]
  have hw2 : ¬ (0 = app.window) := fun h => hw h.symm
  simp [engine_handle_cmd, initialState, android_main_engine, engine_zeroed,
    APP_CMD_INIT_WINDOW, APP_CMD_SAVE_STATE, hw2, RuntimeAndroid.LoadScript]

/-- C4 at a concrete input: zeroed engine, a focus command first, then the first
window-ready event with window 7 of size 640 x 480. -/
theorem C4_first_init_window_witness :
    engine_handle_cmd ⟨7, 640, 480⟩ APP_CMD_INIT_WINDOW
        (handle_cmds (initialState (android_main_engine 0 0 0 0))
          [⟨⟨0, 0, 0⟩, APP_CMD_GAINED_FOCUS⟩]).1 =
      (⟨{ android_main_engine 0 0 0 0 with m_window := 7 },
        some ⟨7, "file:///data/local/tmp", 640, 480,
          ["Scripts/babylon.max.js", "Scripts/babylon.glTF2FileLoader.js",
           "Scripts/experience.js"]⟩,
        some InputBuffer.new⟩,
       [Effect.RegisterLogOutput LogSink.AndroidLogMessage,
        Effect.RegisterWarnOutput LogSink.AndroidWarnMessage,
        Effect.RegisterErrorOutput LogSink.AndroidErrorMessage,
        Effect.RuntimeAndroid_construct 7 "file:///data/local/tmp" 640 480,
        Effect.InputBuffer_construct,
        Effect.InputManager_Initialize,
        Effect.LoadScript "Scripts/babylon.max.js",
        Effect.LoadScript "Scripts/babylon.glTF2FileLoader.js",
        Effect.LoadScript "Scripts/experience.js"]) :=
  C4_first_init_window 0 0 0 0 [⟨⟨0, 0, 0⟩, APP_CMD_GAINED_FOCUS⟩] ⟨7, 640, 480⟩
    (by decide) (by decide)

/-! ## C5: input events -/

/-- The comparison `f > 0.f` on bit patterns agrees with the values: it holds
exactly when `f` is not a NaN and is either `+inf` or a finite value whose
rational value is positive. -/
theorem float.gtZero_iff (f : float) :
    f.gtZero = true ↔
      f.isNaN = false ∧
        ((f.exponent = 255 ∧ f.sign = 0) ∨ (f.exponent < 255 ∧ 0 < f.toRat)) := by
  have hs : f.sign = 0 ∨ f.sign = 1 := by
    unfold float.sign; omega
  have he : f.exponent < 256 := by
    unfold float.exponent; omega
  have hpow : ∀ k : Int, (0 : ℚ) < (2 : ℚ) ^ k := fun k => zpow_pos (by norm_num) k
  by_cases hnan : f.isNaN = true
  · simp [float.gtZero, hnan]
  · have hnan2 : f.isNaN = false := by simpa using hnan
    rcases hs with h0 | h1
    · by_cases hz : f.exponent = 0
      · by_cases hm : f.mantissa = 0
        · have htr : f.toRat = 0 := by
            unfold float.toRat
            rw [if_pos h0, if_pos hz, hm]
            simp
          simp [float.gtZero, float.isZero, htr, h0, hz, hm, hnan2]
        · have hmq : (0 : ℚ) < (f.mantissa : ℚ) := by
            exact_mod_cast Nat.pos_of_ne_zero hm
          have htr : 0 < f.toRat := by
            unfold float.toRat
            rw [if_pos h0, if_pos hz, one_mul]
            exact mul_pos hmq (hpow _)
          simp [float.gtZero, float.isZero, htr, h0, hz, hm, hnan2]
      · have hq : (0 : ℚ) < ((2 ^ 23 + f.mantissa : Nat) : ℚ) := by
          exact_mod_cast Nat.add_pos_left (by norm_num) _
        have htr : 0 < f.toRat := by
          unfold float.toRat
          rw [if_pos h0, if_neg hz, one_mul]
          exact mul_pos hq (hpow _)
        have hlt : f.exponent = 255 ∨ f.exponent < 255 := by omega
        rcases hlt with h255 | hlt
        · simp [float.gtZero, float.isZero, h0, h255, hnan2]
        · simp [float.gtZero, float.isZero, htr, h0, hz, hlt, hnan2]
    · have hnonneg : (0 : ℚ) ≤ (if f.exponent = 0 then (f.mantissa : ℚ) * (2 : ℚ) ^ (-149 : Int)
          else ((2 ^ 23 + f.mantissa : Nat) : ℚ) * (2 : ℚ) ^ ((f.exponent : Int) - 150)) := by
        split_ifs
        · exact mul_nonneg (by positivity) (le_of_lt (hpow _))
        · exact mul_nonneg (by positivity) (le_of_lt (hpow _))
      have hle : ¬ (0 < f.toRat) := by
        unfold float.toRat
        rw [h1]
        simp only [one_ne_zero, if_false]
        linarith
      simp [float.gtZero, h1, hle]

/-- C5: for every input event handled while the input buffer exists: if the
event's type is motion, the call returns 1, the buffer's pointer position is
pointer 0's (x, y), its pressed flag is true exactly when pointer 0's pressure
is greater than zero (as a comparison of floats: not NaN, and `+inf` or a
positive value), and nothing else in the state changes; if the event's type is
not motion, the call returns 0 and the state, the input buffer included, is
unchanged and no call is made on the buffer. -/
theorem C5_engine_handle_input
    (app : android_app) (event : AInputEvent) (g : ProcessState) (buf : InputBuffer)
    (h : g.inputBuffer = some buf) :
    (event.type = AINPUT_EVENT_TYPE_MOTION →
      engine_handle_input app event g =
          Except.ok
            ⟨⟨g.engine, g.runtime, some ⟨event.x, event.y, event.pressure.gtZero⟩⟩,
             [Effect.SetPointerPosition event.x event.y,
              Effect.SetPointerDown event.pressure.gtZero],
             1⟩ ∧
        (event.pressure.gtZero = true ↔
          event.pressure.isNaN = false ∧
            ((event.pressure.exponent = 255 ∧ event.pressure.sign = 0) ∨
             (event.pressure.exponent < 255 ∧ 0 < event.pressure.toRat)))) ∧
    (event.type ≠ AINPUT_EVENT_TYPE_MOTION →
      engine_handle_input app event g = Except.ok ⟨g, [], 0⟩) := by
  obtain ⟨e, rt, ib⟩ := g
  simp only at h
  subst h
  refine ⟨fun hm => ⟨?_, float.gtZero_iff _⟩, fun hn => ?_⟩
  · simp [engine_handle_input, hm, InputBuffer.SetPointerPosition, InputBuffer.SetPointerDown]
  · simp [engine_handle_input, hn]

/-- C5 at a concrete input: a motion event at (1.0f, 2.0f) with pressure 0.5f
(bit patterns `0x3F800000`, `0x40000000`, `0x3F000000`) on a fresh buffer. -/
theorem C5_engine_handle_input_witness :
    engine_handle_input ⟨7, 640, 480⟩ ⟨AINPUT_EVENT_TYPE_MOTION, ⟨1065353216⟩, ⟨1073741824⟩,
        ⟨1056964608⟩⟩ ⟨engine_zeroed, none, some InputBuffer.new⟩ =
      Except.ok
        ⟨⟨engine_zeroed, none, some ⟨⟨1065353216⟩, ⟨1073741824⟩, true⟩⟩,
         [Effect.SetPointerPosition ⟨1065353216⟩ ⟨1073741824⟩, Effect.SetPointerDown true],
         1⟩ :=
  ((C5_engine_handle_input ⟨7, 640, 480⟩
      ⟨AINPUT_EVENT_TYPE_MOTION, ⟨1065353216⟩, ⟨1073741824⟩, ⟨1056964608⟩⟩
      ⟨engine_zeroed, none, some InputBuffer.new⟩ InputBuffer.new rfl).1 rfl).1

/-- The comparison with zero on sample patterns: `+0`, `-0`, the smallest
positive subnormal, `-1.0f`, `+inf`, a quiet NaN. -/
theorem float_gtZero_samples :
    float.gtZero ⟨0⟩ = false ∧ float.gtZero ⟨2147483648⟩ = false ∧
      float.gtZero ⟨1⟩ = true ∧ float.gtZero ⟨3212836864⟩ = false ∧
      float.gtZero ⟨2139095040⟩ = true ∧ float.gtZero ⟨2143289344⟩ = false := by
  decide

/-! ## C7: sensor-manager acquisition -/

/-- C7, as stated, fails for the null app handle: with neither symbol resolving,
`AcquireASensorManagerInstance(nullptr)` returns the null pointer; the `!app`
guard returns before any resolution and before the assertion. -/
theorem C7_counterexample :
    AcquireASensorManagerInstance none ⟨none, none⟩ = Except.ok 0 := by
  rfl

/-- C7, amended: with the `assert` compiled in, for every outcome of symbol
resolution in which neither `ASensorManager_getInstanceForPackage` nor
`ASensorManager_getInstance` resolves: for every non-null app handle
`AcquireASensorManagerInstance` fails by assertion instead of returning a value,
and for the null app handle it returns the null pointer. -/
theorem C7_acquire_asserts_without_api (app : Option ANativeActivity) (sym : SensorSymbols)
    (h1 : sym.getInstanceForPackage = none) (h2 : sym.getInstance = none) :
    (∀ activity : ANativeActivity, app = some activity →
      AcquireASensorManagerInstance app sym = Except.error Fault.assertionFailed) ∧
    (app = none → AcquireASensorManagerInstance app sym = Except.ok 0) := by
  refine ⟨fun activity ha => ?_, fun ha => ?_⟩
  · subst ha
    simp [AcquireASensorManagerInstance, h1, h2]
  · subst ha
    rfl

/-- C7, amended, at a concrete input: a non-null app of package "com.example",
no symbol resolving. -/
theorem C7_acquire_asserts_without_api_witness :
    AcquireASensorManagerInstance (some ⟨"com.example"⟩) ⟨none, none⟩ =
      Except.error Fault.assertionFailed :=
  (C7_acquire_asserts_without_api (some ⟨"com.example"⟩) ⟨none, none⟩ rfl rfl).1
    ⟨"com.example"⟩ rfl

/-- The null app handle returns the null pointer whatever resolves. -/
theorem AcquireASensorManagerInstance_null (sym : SensorSymbols) :
    AcquireASensorManagerInstance none sym = Except.ok 0 := by
  rfl

/-- The other paths of `AcquireASensorManagerInstance` for a non-null app: a
non-null manager from the package-scoped function is returned; otherwise the
global function's result is returned when that symbol resolves, and the
assertion fails when it does not (also when the package-scoped function
resolved but answered null). -/
theorem AcquireASensorManagerInstance_paths (activity : ANativeActivity) (sym : SensorSymbols) :
    (∀ f, sym.getInstanceForPackage = some f → f activity.packageName ≠ 0 →
      AcquireASensorManagerInstance (some activity) sym =
        Except.ok (f activity.packageName)) ∧
    (∀ f k, sym.getInstanceForPackage = some f → f activity.packageName = 0 →
      sym.getInstance = some k →
      AcquireASensorManagerInstance (some activity) sym = Except.ok (k ())) ∧
    (∀ k, sym.getInstanceForPackage = none → sym.getInstance = some k →
      AcquireASensorManagerInstance (some activity) sym = Except.ok (k ())) ∧
    (∀ f, sym.getInstanceForPackage = some f → f activity.packageName = 0 →
      sym.getInstance = none →
      AcquireASensorManagerInstance (some activity) sym =
        Except.error Fault.assertionFailed) := by
  refine ⟨fun f h1 h2 => ?_, fun f k h1 h2 h3 => ?_, fun k h1 h2 => ?_, fun f h1 h2 h3 => ?_⟩ <;>
    simp [AcquireASensorManagerInstance, *]

/-! ## C9: the accelerometer event period -/

/-- C9, evaluated on the code: with an accelerometer present (sensor 5 on queue
3), `APP_CMD_GAINED_FOCUS` passes 16000 microseconds to
`ASensorEventQueue_setEventRate`, not 16666: `1000L/60` truncates to 16 before
the multiplication by 1000. -/
theorem C9_event_rate_is_16000 :
    eventRates
        (engine_handle_cmd ⟨0, 0, 0⟩ APP_CMD_GAINED_FOCUS
          (initialState (android_main_engine 1 2 5 3))).2 = [16000] ∧
      eventRateUsec = 16000 ∧ eventRateUsec ≠ Int.tdiv 1000000 60 ∧
      Int.tdiv 1000000 60 = 16666 := by
  decide

/-! ## C8: the accelerometer subscription follows focus -/

theorem handle_cmds_append (a b : List Command) :
    ∀ g : ProcessState,
      handle_cmds g (a ++ b) =
        ((handle_cmds (handle_cmds g a).1 b).1,
         (handle_cmds g a).2 ++ (handle_cmds (handle_cmds g a).1 b).2) := by
  induction a with
  | nil => intro g; simp [handle_cmds]
  | cons c rest ih =>
    intro g
    simp [handle_cmds, ih, List.append_assoc]

/-- No command changes the sensor handles kept in the engine. -/
theorem engine_handle_cmd_sensor_fields (app : android_app) (cmd : Int) (g : ProcessState) :
    (engine_handle_cmd app cmd g).1.engine.accelerometerSensor =
        g.engine.accelerometerSensor ∧
      (engine_handle_cmd app cmd g).1.engine.sensorEventQueue = g.engine.sensorEventQueue := by
  obtain ⟨e, rt, ib⟩ := g
  unfold engine_handle_cmd
  cases rt <;> (split_ifs <;> simp)

theorem handle_cmds_sensor_fields (cmds : List Command) :
    ∀ g : ProcessState,
      (handle_cmds g cmds).1.engine.accelerometerSensor = g.engine.accelerometerSensor ∧
        (handle_cmds g cmds).1.engine.sensorEventQueue = g.engine.sensorEventQueue := by
  induction cmds with
  | nil => intro g; simp [handle_cmds]
  | cons c rest ih =>
    intro g
    have h1 := engine_handle_cmd_sensor_fields c.app c.cmd g
    have h2 := ih (engine_handle_cmd c.app c.cmd g).1
    simp only [handle_cmds]
    exact ⟨h2.1.trans h1.1, h2.2.trans h1.2⟩

/-- With an accelerometer present, one command sets the subscription on a gained
focus, clears it on a lost focus, and leaves it alone otherwise. -/
theorem engine_handle_cmd_sensorEnabled (app : android_app) (cmd : Int) (g : ProcessState)
    (b : Bool) (h : g.engine.accelerometerSensor ≠ 0) :
    sensorEnabled g.engine.sensorEventQueue g.engine.accelerometerSensor b
        (engine_handle_cmd app cmd g).2 =
      if cmd = APP_CMD_GAINED_FOCUS then true
      else if cmd = APP_CMD_LOST_FOCUS then false else b := by
  obtain ⟨e, rt, ib⟩ := g
  simp only at h
  unfold engine_handle_cmd
  cases rt <;>
    (split_ifs <;>
      simp_all [sensorEnabled, sensorEnabledStep, APP_CMD_GAINED_FOCUS, APP_CMD_LOST_FOCUS,
        APP_CMD_INIT_WINDOW, APP_CMD_SAVE_STATE, APP_CMD_WINDOW_RESIZED, APP_CMD_TERM_WINDOW])

/-- Without an accelerometer, one command issues no sensor-queue call. -/
theorem engine_handle_cmd_no_sensor_op (app : android_app) (cmd : Int) (g : ProcessState)
    (h : g.engine.accelerometerSensor = 0) :
    ∀ e ∈ (engine_handle_cmd app cmd g).2, e.isSensorQueueOp = false := by
  obtain ⟨e, rt, ib⟩ := g
  simp only at h
  unfold engine_handle_cmd
  cases rt <;> (split_ifs <;> simp_all [Effect.isSensorQueueOp])

theorem handle_cmds_no_sensor_op (cmds : List Command) :
    ∀ g : ProcessState, g.engine.accelerometerSensor = 0 →
      ∀ e ∈ (handle_cmds g cmds).2, e.isSensorQueueOp = false := by
  induction cmds with
  | nil => intro g _ e he; simp [handle_cmds] at he
  | cons c rest ih =>
    intro g h e he
    simp only [handle_cmds, List.mem_append] at he
    rcases he with he | he
    · exact engine_handle_cmd_no_sensor_op c.app c.cmd g h e he
    · exact ih _ ((engine_handle_cmd_sensor_fields c.app c.cmd g).1.trans h) e he

theorem lastFocusCmd_append_singleton (cmds : List Command) (c : Command) :
    lastFocusCmd (cmds ++ [c]) = if isFocusCmd c.cmd then some c.cmd else lastFocusCmd cmds := by
  unfold lastFocusCmd
  by_cases h : isFocusCmd c.cmd = true
  · simp [List.filter_append, List.filter_cons, h]
  · simp [List.filter_append, List.filter_cons, h]

/-- With an accelerometer present, after any sequence of commands the sensor is
enabled exactly when the most recent focus command is a gained focus. -/
theorem handle_cmds_sensorEnabled (cmds : List Command) :
    ∀ g : ProcessState, g.engine.accelerometerSensor ≠ 0 →
      sensorEnabled g.engine.sensorEventQueue g.engine.accelerometerSensor false
          (handle_cmds g cmds).2 =
        decide (lastFocusCmd cmds = some APP_CMD_GAINED_FOCUS) := by
  induction cmds using List.reverseRecOn with
  | nil => intro g _; simp [handle_cmds, sensorEnabled, lastFocusCmd]
  | append_singleton rest c ih =>
    intro g h
    have hf := handle_cmds_sensor_fields rest g
    have hstep := engine_handle_cmd_sensorEnabled c.app c.cmd (handle_cmds g rest).1
      (sensorEnabled g.engine.sensorEventQueue g.engine.accelerometerSensor false
        (handle_cmds g rest).2) (by rw [hf.1]; exact h)
    rw [hf.1, hf.2] at hstep
    rw [handle_cmds_append, lastFocusCmd_append_singleton]
    simp only [handle_cmds, List.append_nil]
    unfold sensorEnabled at hstep ⊢
    rw [List.foldl_append, hstep, ← sensorEnabled, ih g h]
    by_cases h1 : c.cmd = APP_CMD_GAINED_FOCUS
    · simp [h1, isFocusCmd]
    · by_cases h2 : c.cmd = APP_CMD_LOST_FOCUS
      · simp [h2, isFocusCmd, APP_CMD_GAINED_FOCUS, APP_CMD_LOST_FOCUS]
      · simp [h1, h2, isFocusCmd]

/-- C8: for every finite sequence of lifecycle commands handled from any state,
the accelerometer being disabled at the start: when an accelerometer is present,
after each command (after every prefix of the sequence) the accelerometer is
enabled on the engine's sensor event queue if and only if the most recent focus
command handled so far is `APP_CMD_GAINED_FOCUS` (so it is disabled when that is
`APP_CMD_LOST_FOCUS` or when no focus command has occurred); when no
accelerometer is present (`NULL`), no command issues a sensor-queue call. -/
theorem C8_accelerometer_follows_focus (g : ProcessState) (cmds : List Command) :
    (g.engine.accelerometerSensor ≠ 0 →
      ∀ n : Nat,
        (sensorEnabled g.engine.sensorEventQueue g.engine.accelerometerSensor false
            (handle_cmds g (cmds.take n)).2 = true ↔
          lastFocusCmd (cmds.take n) = some APP_CMD_GAINED_FOCUS)) ∧
    (g.engine.accelerometerSensor = 0 →
      ∀ e ∈ (handle_cmds g cmds).2, e.isSensorQueueOp = false) := by
  refine ⟨fun h n => ?_, fun h => handle_cmds_no_sensor_op cmds g h⟩
  rw [handle_cmds_sensorEnabled (cmds.take n) g h]
  simp

/-- C8 at a concrete input (sensor 5 on queue 3): after a gained focus followed
by a window-ready event the accelerometer is enabled. -/
theorem C8_accelerometer_follows_focus_witness :
    sensorEnabled 3 5 false
        (handle_cmds (initialState (android_main_engine 1 2 5 3))
          (List.take 2 [⟨⟨0, 0, 0⟩, APP_CMD_GAINED_FOCUS⟩, ⟨⟨7, 640, 480⟩, APP_CMD_INIT_WINDOW⟩,
            ⟨⟨7, 640, 480⟩, APP_CMD_LOST_FOCUS⟩])).2 = true :=
  ((C8_accelerometer_follows_focus (initialState (android_main_engine 1 2 5 3))
      [⟨⟨0, 0, 0⟩, APP_CMD_GAINED_FOCUS⟩, ⟨⟨7, 640, 480⟩, APP_CMD_INIT_WINDOW⟩,
       ⟨⟨7, 640, 480⟩, APP_CMD_LOST_FOCUS⟩]).1 (by decide) 2).mpr (by decide)

/-- C8 on a concrete run (sensor 5 on queue 3): gained, then a window event,
then lost; the subscription after each prefix, and the calls made. -/
theorem accelerometer_follows_focus_example :
    (List.range 4).map (fun n =>
        sensorEnabled 3 5 false
          (handle_cmds (initialState (android_main_engine 1 2 5 3))
            (List.take n [⟨⟨0, 0, 0⟩, APP_CMD_GAINED_FOCUS⟩, ⟨⟨7, 640, 480⟩, APP_CMD_INIT_WINDOW⟩,
              ⟨⟨7, 640, 480⟩, APP_CMD_LOST_FOCUS⟩])).2) = [false, true, true, false] ∧
      (handle_cmds (initialState (android_main_engine 1 2 5 3))
          [⟨⟨0, 0, 0⟩, APP_CMD_GAINED_FOCUS⟩, ⟨⟨0, 0, 0⟩, APP_CMD_LOST_FOCUS⟩]).2 =
        [Effect.ASensorEventQueue_enableSensor 3 5,
         Effect.ASensorEventQueue_setEventRate 3 5 16000,
         Effect.ASensorEventQueue_disableSensor 3 5] := by
  constructor <;> rfl

/-! ## C6: the event loop -/

theorem stateAfter_cons (st : MainState) (p : PollResult) (rest : List PollResult) :
    stateAfter st (p :: rest) = stateAfter (loop_body st p).1 rest := by
  simp [stateAfter]

theorem loop_body_events (st : MainState) (p : PollResult) :
    (loop_body st p).2 = iterationEvents p := by
  cases p <;> rfl

/-- The whole run of the loop over the given poll results. -/
theorem android_main_loop_run (polls : List PollResult) :
    ∀ st : MainState,
      (android_main_loop st polls).iterations ≤ polls.length ∧
      (android_main_loop st polls).state =
        stateAfter st (polls.take (android_main_loop st polls).iterations) ∧
      (∀ k, k < (android_main_loop st polls).iterations →
        (stateAfter st (polls.take k)).destroyRequested = 0) ∧
      ((android_main_loop st polls).status = LoopStatus.exited ↔
        (android_main_loop st polls).state.destroyRequested ≠ 0) ∧
      ((android_main_loop st polls).status = LoopStatus.waiting ↔
        ((android_main_loop st polls).state.destroyRequested = 0 ∧
          (android_main_loop st polls).iterations = polls.length)) ∧
      (android_main_loop st polls).events =
        eventsOf (polls.take (android_main_loop st polls).iterations) := by
  induction polls with
  | nil =>
    intro st
    by_cases h : st.destroyRequested = 0
    · simp [android_main_loop, loop_condition, h, stateAfter, eventsOf]
    · have h2 : ¬ (0 = st.destroyRequested) := fun e => h e.symm
      simp [android_main_loop, loop_condition, h, h2, stateAfter, eventsOf]
  | cons p rest ih =>
    intro st
    by_cases h : st.destroyRequested = 0
    · have hc : loop_condition st = true := by simp [loop_condition, h]
      obtain ⟨i1, i2, i3, i4, i5, i6⟩ := ih (loop_body st p).1
      simp only [android_main_loop, hc, if_true, List.take_succ_cons, stateAfter_cons,
        List.length_cons, eventsOf, loop_body_events]
      refine ⟨by omega, i2, ?_, i4, ?_, ?_⟩
      · intro k hk
        cases k with
        | zero => simpa [stateAfter] using h
        | succ j =>
          rw [List.take_succ_cons, stateAfter_cons]
          exact i3 j (by omega)
      · rw [i5]
        constructor
        · rintro ⟨a, b⟩; exact ⟨a, by omega⟩
        · rintro ⟨a, b⟩; exact ⟨a, by omega⟩
      · rw [i6]
    · have h2 : ¬ (0 = st.destroyRequested) := fun e => h e.symm
      simp [android_main_loop, loop_condition, h, h2, stateAfter, eventsOf]

/-- C6: the loop of `android_main` over a sequence of poll results.
(1) At a top-of-iteration check with `destroyRequested` non-zero the loop exits
at once: no poll, no handler call. (2) At a check with `destroyRequested` zero
an iteration starts: it performs exactly one poll, calls the returned source's
`process` handler exactly once when the source is non-null and not at all when
it is null, and the loop goes on from the resulting state; with no further poll
result the loop stays waiting inside the poll and does not exit. (3) Over the
whole run: the loop exits if and only if `destroyRequested` is non-zero in the
state it ends in, which is the state after the first `iterations` poll results;
`destroyRequested` was zero at every earlier check; a run that has not exited
has consumed every poll result; and the events are exactly one poll and at most
one handler call for each iteration. -/
theorem C6_android_main_loop (st : MainState) (polls : List PollResult) :
    (st.destroyRequested ≠ 0 →
      (android_main_loop st polls).status = LoopStatus.exited ∧
      (android_main_loop st polls).events = [] ∧
      (android_main_loop st polls).iterations = 0 ∧
      (android_main_loop st polls).state = st) ∧
    (st.destroyRequested = 0 →
      (∀ (src : android_poll_source) (rest : List PollResult), polls = some src :: rest →
        (android_main_loop st polls).events =
            LoopEvent.poll :: LoopEvent.process src.id ::
              (android_main_loop (src.process st) rest).events ∧
          (android_main_loop st polls).iterations =
            (android_main_loop (src.process st) rest).iterations + 1 ∧
          (android_main_loop st polls).status =
            (android_main_loop (src.process st) rest).status ∧
          (android_main_loop st polls).state =
            (android_main_loop (src.process st) rest).state) ∧
      (∀ rest : List PollResult, polls = none :: rest →
        (android_main_loop st polls).events =
            LoopEvent.poll :: (android_main_loop st rest).events ∧
          (android_main_loop st polls).iterations = (android_main_loop st rest).iterations + 1 ∧
          (android_main_loop st polls).status = (android_main_loop st rest).status ∧
          (android_main_loop st polls).state = (android_main_loop st rest).state) ∧
      (polls = [] →
        (android_main_loop st polls).status = LoopStatus.waiting ∧
        (android_main_loop st polls).events = [])) ∧
    ((android_main_loop st polls).iterations ≤ polls.length ∧
      (android_main_loop st polls).state =
        stateAfter st (polls.take (android_main_loop st polls).iterations) ∧
      (∀ k, k < (android_main_loop st polls).iterations →
        (stateAfter st (polls.take k)).destroyRequested = 0) ∧
      ((android_main_loop st polls).status = LoopStatus.exited ↔
        (android_main_loop st polls).state.destroyRequested ≠ 0) ∧
      ((android_main_loop st polls).status = LoopStatus.waiting ↔
        ((android_main_loop st polls).state.destroyRequested = 0 ∧
          (android_main_loop st polls).iterations = polls.length)) ∧
      (android_main_loop st polls).events =
        eventsOf (polls.take (android_main_loop st polls).iterations)) := by
  refine ⟨fun h => ?_, fun h => ⟨?_, ?_, ?_⟩, android_main_loop_run polls st⟩
  · have h2 : ¬ (0 = st.destroyRequested) := fun e => h e.symm
    cases polls <;> simp [android_main_loop, loop_condition, h2]
  · rintro src rest rfl
    simp [android_main_loop, loop_condition, h, loop_body]
  · rintro rest rfl
    simp [android_main_loop, loop_condition, h, loop_body]
  · rintro rfl
    simp [android_main_loop, loop_condition, h]

/-- C6 on a concrete run: a wake-up with no source, a gained focus, a destroy
command, and one more poll result that is never consumed. The loop exits after
three iterations, having polled three times and called the handler twice. -/
theorem C6_android_main_loop_witness :
    (android_main_loop (android_main_start 1 2 5 3)
        [none, some (cmdSource ⟨0, 0, 0⟩ APP_CMD_GAINED_FOCUS),
         some (cmdSource ⟨0, 0, 0⟩ APP_CMD_DESTROY),
         some (cmdSource ⟨0, 0, 0⟩ APP_CMD_LOST_FOCUS)]).status = LoopStatus.exited ∧
    (android_main_loop (android_main_start 1 2 5 3)
        [none, some (cmdSource ⟨0, 0, 0⟩ APP_CMD_GAINED_FOCUS),
         some (cmdSource ⟨0, 0, 0⟩ APP_CMD_DESTROY),
         some (cmdSource ⟨0, 0, 0⟩ APP_CMD_LOST_FOCUS)]).events =
      [LoopEvent.poll, LoopEvent.poll, LoopEvent.process 1, LoopEvent.poll,
       LoopEvent.process 1] ∧
    (android_main_loop (android_main_start 1 2 5 3)
        [none, some (cmdSource ⟨0, 0, 0⟩ APP_CMD_GAINED_FOCUS),
         some (cmdSource ⟨0, 0, 0⟩ APP_CMD_DESTROY),
         some (cmdSource ⟨0, 0, 0⟩ APP_CMD_LOST_FOCUS)]).iterations = 3 :=
  ⟨(C6_android_main_loop (android_main_start 1 2 5 3)
      [none, some (cmdSource ⟨0, 0, 0⟩ APP_CMD_GAINED_FOCUS),
       some (cmdSource ⟨0, 0, 0⟩ APP_CMD_DESTROY),
       some (cmdSource ⟨0, 0, 0⟩ APP_CMD_LOST_FOCUS)]).2.2.2.2.2.1.mpr (by decide),
   rfl, rfl⟩

/-! ## C10: the input buffer seen by input events -/

theorem engine_handle_cmd_paired (app : android_app) (cmd : Int) (g : ProcessState)
    (h : buffersPaired g) :
    buffersPaired (engine_handle_cmd app cmd g).1 ∧
      ((engine_handle_cmd app cmd g).1.runtime.isSome = true ↔
        (g.runtime.isSome = true ∨ 0 < runtimeConstructions (engine_handle_cmd app cmd g).2)) := by
  obtain ⟨e, rt, ib⟩ := g
  unfold buffersPaired at h ⊢
  simp only at h
  unfold engine_handle_cmd
  cases rt <;>
    (split_ifs <;> simp_all [runtimeConstructions, Effect.isRuntimeConstruct])

theorem engine_handle_input_paired (app : android_app) (event : AInputEvent) (g : ProcessState)
    (r : InputResult) (h : buffersPaired g) (hr : engine_handle_input app event g = Except.ok r) :
    buffersPaired r.state ∧ r.state.runtime = g.runtime ∧ runtimeConstructions r.calls = 0 := by
  obtain ⟨e, rt, ib⟩ := g
  unfold buffersPaired at h ⊢
  simp only at h
  unfold engine_handle_input at hr
  split_ifs at hr with hm
  · cases ib with
    | none => simp at hr
    | some b =>
      simp only [Except.ok.injEq] at hr
      subst hr
      simp_all [runtimeConstructions, Effect.isRuntimeConstruct]
  · simp only [Except.ok.injEq] at hr
    subst hr
    simp_all [runtimeConstructions]

/-- Along a run that returns, buffer and runtime stay paired, and the runtime
exists at the end exactly when it existed at the start or was constructed on
the way. -/
theorem handle_events_paired (evs : List AppEvent) :
    ∀ (g s : ProcessState) (t : List Effect), buffersPaired g →
      handle_events g evs = Except.ok (s, t) →
      buffersPaired s ∧
        (s.runtime.isSome = true ↔ (g.runtime.isSome = true ∨ 0 < runtimeConstructions t)) := by
  induction evs with
  | nil =>
    intro g s t hg h
    simp only [handle_events, Except.ok.injEq, Prod.mk.injEq] at h
    obtain ⟨rfl, rfl⟩ := h
    simp [hg, runtimeConstructions]
  | cons ev rest ih =>
    intro g s t hg h
    cases ev with
    | command c =>
      simp only [handle_events] at h
      have hstep := engine_handle_cmd_paired c.app c.cmd g hg
      cases hrec : handle_events (engine_handle_cmd c.app c.cmd g).1 rest with
      | error f => simp [hrec] at h
      | ok r2 =>
        simp only [hrec, Except.ok.injEq, Prod.mk.injEq] at h
        obtain ⟨rfl, rfl⟩ := h
        have := ih _ r2.1 r2.2 hstep.1 hrec
        refine ⟨this.1, ?_⟩
        rw [this.2, hstep.2, runtimeConstructions_append]
        constructor
        · rintro ((a | a) | a)
          · exact Or.inl a
          · exact Or.inr (by omega)
          · exact Or.inr (by omega)
        · rintro (a | a)
          · exact Or.inl (Or.inl a)
          · by_cases hz : 0 < runtimeConstructions (engine_handle_cmd c.app c.cmd g).2
            · exact Or.inl (Or.inr hz)
            · exact Or.inr (by omega)
    | input app event =>
      simp only [handle_events] at h
      cases hin : engine_handle_input app event g with
      | error f => simp [hin] at h
      | ok r =>
        have hstep := engine_handle_input_paired app event g r hg hin
        cases hrec : handle_events r.state rest with
        | error f => simp [hin, hrec] at h
        | ok r2 =>
          simp only [hin, hrec, Except.ok.injEq, Prod.mk.injEq] at h
          obtain ⟨rfl, rfl⟩ := h
          have := ih _ r2.1 r2.2 hstep.1 hrec
          refine ⟨this.1, ?_⟩
          rw [this.2, hstep.2.1, runtimeConstructions_append, hstep.2.2, Nat.zero_add]

/-- A command never empties the input buffer. -/
theorem engine_handle_cmd_keeps_buffer (app : android_app) (cmd : Int) (g : ProcessState)
    (h : g.inputBuffer.isSome = true) :
    (engine_handle_cmd app cmd g).1.inputBuffer.isSome = true := by
  obtain ⟨e, rt, ib⟩ := g
  simp only at h
  unfold engine_handle_cmd
  cases rt <;> (split_ifs <;> simp_all)

/-- With an input buffer in place every input event is handled and the buffer
stays. -/
theorem engine_handle_input_of_buffer (app : android_app) (event : AInputEvent)
    (g : ProcessState) (h : g.inputBuffer.isSome = true) :
    ∃ r, engine_handle_input app event g = Except.ok r ∧ r.state.inputBuffer.isSome = true := by
  obtain ⟨e, rt, ib⟩ := g
  cases ib with
  | none => simp at h
  | some b =>
    unfold engine_handle_input
    split_ifs <;> simp

/-- Once the input buffer exists, every interleaving is handled to its end. -/
theorem handle_events_of_buffer (evs : List AppEvent) :
    ∀ g : ProcessState, g.inputBuffer.isSome = true → ∃ r, handle_events g evs = Except.ok r := by
  induction evs with
  | nil => intro g _; exact ⟨_, rfl⟩
  | cons ev rest ih =>
    intro g h
    cases ev with
    | command c =>
      obtain ⟨r2, hr2⟩ := ih _ (engine_handle_cmd_keeps_buffer c.app c.cmd g h)
      exact ⟨(r2.1, (engine_handle_cmd c.app c.cmd g).2 ++ r2.2),
        by simp only [handle_events, hr2]⟩
    | input app event =>
      obtain ⟨r, hr, hb⟩ := engine_handle_input_of_buffer app event g h
      obtain ⟨r2, hr2⟩ := ih _ hb
      exact ⟨(r2.1, r.calls ++ r2.2), by simp only [handle_events, hr, hr2]⟩

/-- In a state with no recorded window, a command that is not a window-ready
event with a non-null window changes nothing. -/
theorem engine_handle_cmd_fresh (c : Command) (g : ProcessState)
    (hw : g.engine.m_window = 0)
    (hc : ¬ (c.cmd = APP_CMD_INIT_WINDOW ∧ c.app.window ≠ 0)) :
    (engine_handle_cmd c.app c.cmd g).1 = g := by
  by_cases h : c.cmd = APP_CMD_INIT_WINDOW
  · have hz : c.app.window = 0 := by
      by_contra hne
      exact hc ⟨h, hne⟩
    simp [engine_handle_cmd, h, APP_CMD_INIT_WINDOW, APP_CMD_SAVE_STATE, hw, hz]
  · exact engine_handle_cmd_state_of_ne_init c.app c.cmd g h

/-- In a state with no recorded window and no runtime, a window-ready event with
a non-null window creates the input buffer. -/
theorem engine_handle_cmd_fresh_init (c : Command) (g : ProcessState)
    (hw : g.engine.m_window = 0) (hrt : g.runtime = none)
    (hc : c.cmd = APP_CMD_INIT_WINDOW ∧ c.app.window ≠ 0) :
    (engine_handle_cmd c.app c.cmd g).1.inputBuffer.isSome = true := by
  obtain ⟨e, rt, ib⟩ := g
  simp only at hw hrt
  subst hrt
  have hne : ¬ (e.m_window = c.app.window) := by
    rw [hw]
    exact fun h => hc.2 h.symm
  simp [engine_handle_cmd, hc.1, APP_CMD_INIT_WINDOW, APP_CMD_SAVE_STATE, hne]

/-- From a state with no recorded window, no runtime and no input buffer, an
interleaving is handled to its end exactly when no motion event comes before
the first window-ready event with a non-null window. -/
theorem handle_events_returns_iff (evs : List AppEvent) :
    ∀ g : ProcessState, g.engine.m_window = 0 → g.runtime = none → g.inputBuffer = none →
      ((∃ r, handle_events g evs = Except.ok r) ↔ motionBeforeRuntime evs = false) := by
  induction evs with
  | nil => intro g _ _ _; simp [handle_events, motionBeforeRuntime]
  | cons ev rest ih =>
    intro g hw hrt hib
    cases ev with
    | command c =>
      by_cases hc : c.cmd = APP_CMD_INIT_WINDOW ∧ c.app.window ≠ 0
      · obtain ⟨r2, hr2⟩ := handle_events_of_buffer rest _
          (engine_handle_cmd_fresh_init c g hw hrt hc)
        have hfalse : motionBeforeRuntime (AppEvent.command c :: rest) = false := by
          simp [motionBeforeRuntime, hc.1, hc.2]
        refine ⟨fun _ => hfalse, fun _ => ?_⟩
        exact ⟨(r2.1, (engine_handle_cmd c.app c.cmd g).2 ++ r2.2),
          by simp only [handle_events, hr2]⟩
      · have hst := engine_handle_cmd_fresh c g hw hc
        have hrec := ih g hw hrt hib
        simp only [motionBeforeRuntime, hc, if_false]
        rw [← hrec]
        simp only [handle_events, hst]
        cases hh : handle_events g rest with
        | error f => simp
        | ok r2 => simp
    | input app event =>
      by_cases hm : event.type = AINPUT_EVENT_TYPE_MOTION
      · simp [handle_events, engine_handle_input, hm, hib, motionBeforeRuntime]
      · have hrec := ih g hw hrt hib
        simp only [motionBeforeRuntime, hm, if_false]
        rw [← hrec]
        simp only [handle_events, engine_handle_input, hm, if_false]
        cases hh : handle_events g rest with
        | error f => simp
        | ok r2 => simp

/-- C10: for every finite interleaving `pre` of lifecycle commands and input
events handled from the initial state (engine as `android_main` set it up, no
runtime, no input buffer), and every input event handled next in the state `s`
reached (with `t` the calls made so far): a motion event finds an existing
input buffer, and its two calls on the buffer are made, if and only if some
earlier command constructed the runtime; if none did, the input buffer is
null and the motion event dereferences it (the call does not return); a
non-motion event makes no call on the input buffer, whether it exists or not,
and returns 0. The interleavings that are handled to their end are exactly
those in which no motion event precedes the first runtime-constructing
`APP_CMD_INIT_WINDOW`. -/
theorem C10_motion_event_input_buffer
    (state sensorManager accelerometerSensor sensorEventQueue : Ptr)
    (pre : List AppEvent) (app : android_app) (event : AInputEvent)
    (s : ProcessState) (t : List Effect)
    (hrun : handle_events
        (initialState
          (android_main_engine state sensorManager accelerometerSensor sensorEventQueue))
        pre = Except.ok (s, t)) :
    (s.inputBuffer.isSome = true ↔ 0 < runtimeConstructions t) ∧
    (event.type = AINPUT_EVENT_TYPE_MOTION →
      ((∃ r, engine_handle_input app event s = Except.ok r) ↔ 0 < runtimeConstructions t) ∧
      (0 < runtimeConstructions t →
        engine_handle_input app event s =
          Except.ok
            ⟨⟨s.engine, s.runtime, some ⟨event.x, event.y, event.pressure.gtZero⟩⟩,
             [Effect.SetPointerPosition event.x event.y,
              Effect.SetPointerDown event.pressure.gtZero],
             1⟩) ∧
      (runtimeConstructions t = 0 →
        s.inputBuffer = none ∧
          engine_handle_input app event s = Except.error Fault.nullDereference)) ∧
    (event.type ≠ AINPUT_EVENT_TYPE_MOTION →
      engine_handle_input app event s = Except.ok ⟨s, [], 0⟩) ∧
    motionBeforeRuntime pre = false := by
  have hp := handle_events_paired pre _ s t (by simp [buffersPaired, initialState]) hrun
  have hbuf : s.inputBuffer.isSome = true ↔ 0 < runtimeConstructions t := by
    rw [hp.1, hp.2]
    simp [initialState]
  have hret := (handle_events_returns_iff pre _ (by simp [initialState, android_main_engine,
    engine_zeroed]) (by simp [initialState]) (by simp [initialState])).mp ⟨_, hrun⟩
  obtain ⟨e, rt, ib⟩ := s
  simp only at hbuf
  refine ⟨hbuf, fun hm => ?_, fun hn => ?_, hret⟩
  · cases ib with
    | none =>
      have h0 : runtimeConstructions t = 0 := by
        by_contra hne
        have := hbuf.mpr (Nat.pos_of_ne_zero hne)
        simp at this
      simp [engine_handle_input, hm, h0]
    | some b =>
      have hpos : 0 < runtimeConstructions t := hbuf.mp (by simp)
      have hne : runtimeConstructions t ≠ 0 := by omega
      simp [engine_handle_input, hm, hpos, hne, InputBuffer.SetPointerPosition,
        InputBuffer.SetPointerDown]
  · simp [engine_handle_input, hn]

/-- C10 at a concrete input: a motion event handled before any command finds no
input buffer, and the call does not return. -/
theorem C10_motion_event_input_buffer_witness :
    engine_handle_input ⟨7, 640, 480⟩
        ⟨AINPUT_EVENT_TYPE_MOTION, ⟨1065353216⟩, ⟨1073741824⟩, ⟨1056964608⟩⟩
        (initialState (android_main_engine 1 2 5 3)) =
      Except.error Fault.nullDereference :=
  (((C10_motion_event_input_buffer 1 2 5 3 [] ⟨7, 640, 480⟩
      ⟨AINPUT_EVENT_TYPE_MOTION, ⟨1065353216⟩, ⟨1073741824⟩, ⟨1056964608⟩⟩
      (initialState (android_main_engine 1 2 5 3)) [] rfl).2.1 rfl).2.2 rfl).2

/-- Two concrete interleavings: a key event, a window-ready event, then a motion
event are handled to the end, the motion event writing the buffer; a motion
event ahead of the window-ready event stops the run. -/
theorem handle_events_examples :
    handle_events (initialState engine_zeroed)
        [AppEvent.input ⟨0, 0, 0⟩ ⟨AINPUT_EVENT_TYPE_KEY, ⟨0⟩, ⟨0⟩, ⟨0⟩⟩,
         AppEvent.command ⟨⟨7, 640, 480⟩, APP_CMD_INIT_WINDOW⟩,
         AppEvent.input ⟨7, 640, 480⟩
           ⟨AINPUT_EVENT_TYPE_MOTION, ⟨1065353216⟩, ⟨1073741824⟩, ⟨1056964608⟩⟩] =
      Except.ok
        (⟨{ engine_zeroed with m_window := 7 },
          some ⟨7, "file:///data/local/tmp", 640, 480,
            ["Scripts/babylon.max.js", "Scripts/babylon.glTF2FileLoader.js",
             "Scripts/experience.js"]⟩,
          some ⟨⟨1065353216⟩, ⟨1073741824⟩, true⟩⟩,
         [Effect.RegisterLogOutput LogSink.AndroidLogMessage,
          Effect.RegisterWarnOutput LogSink.AndroidWarnMessage,
          Effect.RegisterErrorOutput LogSink.AndroidErrorMessage,
          Effect.RuntimeAndroid_construct 7 "file:///data/local/tmp" 640 480,
          Effect.InputBuffer_construct,
          Effect.InputManager_Initialize,
          Effect.LoadScript "Scripts/babylon.max.js",
          Effect.LoadScript "Scripts/babylon.glTF2FileLoader.js",
          Effect.LoadScript "Scripts/experience.js",
          Effect.SetPointerPosition ⟨1065353216⟩ ⟨1073741824⟩,
          Effect.SetPointerDown true]) ∧
    handle_events (initialState engine_zeroed)
        [AppEvent.input ⟨7, 640, 480⟩
           ⟨AINPUT_EVENT_TYPE_MOTION, ⟨1065353216⟩, ⟨1073741824⟩, ⟨1056964608⟩⟩,
         AppEvent.command ⟨⟨7, 640, 480⟩, APP_CMD_INIT_WINDOW⟩] =
      Except.error Fault.nullDereference := by
  constructor <;> rfl

end BabylonNative
